import Mathlib

/-
  Shallow embedding of the procurement application (src/procurement.py).

  Modelling conventions:
  * Float columns (prices, totals) are modelled as `Rat`; integer columns as
    `Nat`/`Int`; nullable foreign keys as `Option Nat`.
  * Each SQLAlchemy table is a `List` of rows, in insertion order;
    `Model.query.get(pk)` / `filter_by(...).first()` is `List.find?`;
    `filter_by(...).all()` and relationship collections are `List.filter`;
    `db.session.add` appends at the end; in-place mutation of a fetched row
    followed by commit is an update of the first matching row.
  * Surrogate `id`/`created_at` columns that no modelled logic reads
    (ApprovalLog.id, Balance.id, timestamps) are omitted.
-/

set_option linter.unusedVariables false

namespace Procurement

/-- `User` model (procurement.py lines 38-48): only the fields the workflow
logic reads (`id`, `role`); authentication is an external collaborator. -/
structure User where
  id : Nat
  role : String
  deriving DecidableEq

/-- `PurchaseRequest` model (lines 61-70). `total` is the cached float column
with default `0.0`; `status` is one of the literal strings used by the code. -/
structure PurchaseRequest where
  id : Nat
  title : String
  description : String
  created_by : Nat
  status : String
  total : Rat
  deriving DecidableEq

/-- `LineItem` model (lines 72-83). `pr_id` is a nullable foreign key to
`purchase_request.id` (no `nullable=False` in the source). -/
structure LineItem where
  id : Nat
  pr_id : Option Nat
  item_name : String
  quantity : Int
  unit : String
  unit_price : Rat
  deriving DecidableEq

/-- `ApprovalLog` model (lines 85-91): append-only log of approval actions. -/
structure ApprovalLog where
  pr_id : Nat
  user_id : Nat
  action : String
  comment : String
  deriving DecidableEq

/-- `PurchaseOrder` model (lines 93-101). `item_id` references `line_item.id`;
the `item` relationship resolves it (possibly to nothing if dangling). -/
structure PurchaseOrder where
  id : Nat
  pr_id : Nat
  item_id : Nat
  supplier_name : String
  quotation_price : Rat
  brand_name : Option String
  deriving DecidableEq

/-- `Balance` model (lines 103-112): the derived per-PR balance row. -/
structure Balance where
  activity_name : String
  pr_total_amount : Rat
  po_total_amount : Rat
  balance_amount : Rat
  user_id : Nat
  pr_id : Nat
  deriving DecidableEq

/-- The whole entity store: one list of rows per table, insertion-ordered. -/
structure DB where
  prs : List PurchaseRequest
  line_items : List LineItem
  purchase_orders : List PurchaseOrder
  balances : List Balance
  approval_logs : List ApprovalLog
  deriving DecidableEq

/-- Error taxonomy surfaced to callers (HTTP 404/403 and the PO-dependents
conflict branch of `pr_delete`). -/
inductive Err where
  | notFound
  | forbidden
  | conflict
  deriving DecidableEq

/-- `LineItem.subtotal` (lines 81-83): `(quantity or 0) * (unit_price or 0)`.
Both columns are non-nullable in the model, so the `or 0` guards are
identities. -/
def subtotal (li : LineItem) : Rat :=
  (li.quantity : Rat) * li.unit_price

/-- The `pr.line_items` relationship (line 69): all LineItems whose `pr_id`
equals the PR's id. -/
def pr_line_items (db : DB) (prid : Nat) : List LineItem :=
  db.line_items.filter (fun li => li.pr_id == some prid)

/-- The `pr.purchase_orders` relationship (line 70): all POs whose `pr_id`
equals the PR's id. -/
def pr_purchase_orders (db : DB) (prid : Nat) : List PurchaseOrder :=
  db.purchase_orders.filter (fun po => po.pr_id == prid)

/-- The `po.item` relationship (line 101): the LineItem with id `po.item_id`,
if any. -/
def po_item (db : DB) (po : PurchaseOrder) : Option LineItem :=
  db.line_items.find? (fun li => li.id == po.item_id)

/-- One PO's contribution `po.quotation_price * (po.item.quantity if po.item
else 0)` (lines 141-144 and 657): a dangling `item_id` contributes factor 0. -/
def po_line_total (db : DB) (po : PurchaseOrder) : Rat :=
  po.quotation_price *
    (match po_item db po with
     | some li => (li.quantity : Rat)
     | none => 0)

/-- `pr_total` as computed inside `update_balance_for_pr` (line 138):
the sum of the subtotals of the PR's current LineItems. -/
def pr_total_of (db : DB) (prid : Nat) : Rat :=
  ((pr_line_items db prid).map subtotal).sum

/-- `po_total` as computed inside `update_balance_for_pr` (lines 141-144):
the sum over the PR's POs of `quotation_price * linked quantity`. -/
def po_total_of (db : DB) (prid : Nat) : Rat :=
  ((pr_purchase_orders db prid).map (po_line_total db)).sum

/-- The `Balance(...)` constructor call of lines 150-157: a fresh Balance row
with every field set from the PR and the two freshly computed totals. -/
def mk_balance (pr : PurchaseRequest) (t p : Rat) : Balance :=
  { activity_name := pr.title
    pr_total_amount := t
    po_total_amount := p
    balance_amount := t - p
    user_id := pr.created_by
    pr_id := pr.id }

/-- Update the first element satisfying `p` with `f`, leaving the rest alone:
the effect of mutating the row returned by `.first()` and committing. -/
def updateFirst (p : α → Bool) (f : α → α) : List α → List α
  | [] => []
  | x :: xs => if p x then f x :: xs else x :: updateFirst p f xs

/-- `update_balance_for_pr(pr_id)` (lines 132-164): load the PR (silent no-op
when absent), recompute `pr_total` from line items and `po_total` from POs,
then upsert the Balance row keyed by `pr_id` — create it with all fields when
absent, else overwrite only the three amount fields in place. -/
def update_balance_for_pr (db : DB) (prid : Nat) : DB :=
  match db.prs.find? (fun q => q.id == prid) with
  | none => db
  | some pr =>
    let t := pr_total_of db pr.id
    let p := po_total_of db pr.id
    let balances :=
      match db.balances.find? (fun b => b.pr_id == prid) with
      | none => db.balances ++ [mk_balance pr t p]
      | some _ =>
        updateFirst (fun b => b.pr_id == prid)
          (fun b => { b with pr_total_amount := t, po_total_amount := p,
                             balance_amount := t - p })
          db.balances
    { db with balances := balances }

/-- `recalc_all_balances()` (lines 166-169): reconcile every PR in turn. -/
def recalc_all_balances (db : DB) : DB :=
  (db.prs.map (·.id)).foldl update_balance_for_pr db

/-- `compute_pr_total(pr_id)` (lines 114-124): returns `0.0` for a missing PR;
otherwise `float(pr.total or 0.0)`, i.e. the cached `pr.total` column
(numerically, `x or 0.0` is `x` for every float `x`, and `float` on a float
never raises, so the line-item fallback of line 124 is unreachable). -/
def compute_pr_total (db : DB) (prid : Nat) : Rat :=
  match db.prs.find? (fun q => q.id == prid) with
  | none => 0
  | some pr => pr.total

/-- Set the status of the PR row with primary key `prid`. -/
def set_pr_status (db : DB) (prid : Nat) (s : String) : DB :=
  { db with prs :=
      (updateFirst (fun q => q.id == prid)
        (fun q => { q with status := s }) db.prs) }

/-- `pr_approve` (lines 317-343): 404 when the PR is absent, 403 unless the
actor's role is `approver` or `admin`; then the literal action `"approve"`
(resp. `"reject"`) sets the status to `approved` (resp. `rejected`), any
other action leaves every PR untouched; in all three cases one ApprovalLog
row recording the raw action string is appended. -/
def pr_approve (db : DB) (actor : User) (prid : Nat)
    (action comment : String) : Except Err DB :=
  match db.prs.find? (fun q => q.id == prid) with
  | none => .error .notFound
  | some pr =>
    if actor.role != "approver" && actor.role != "admin" then
      .error .forbidden
    else
      let db1 :=
        if action == "approve" then set_pr_status db pr.id "approved"
        else if action == "reject" then set_pr_status db pr.id "rejected"
        else db
      .ok { db1 with approval_logs :=
              db1.approval_logs ++
                [{ pr_id := pr.id, user_id := actor.id,
                   action := action, comment := comment }] }

/-- `pr_submit` (lines 809-822): 404 when the PR is absent; refused (flash +
redirect, state untouched) unless the actor is the PR's creator and has role
`requester`; otherwise the status is set to `pending` unconditionally — the
source has no check that the current status is `draft`. -/
def pr_submit (db : DB) (actor : User) (prid : Nat) : Except Err DB :=
  match db.prs.find? (fun q => q.id == prid) with
  | none => .error .notFound
  | some pr =>
    if pr.created_by != actor.id || actor.role != "requester" then
      .error .forbidden
    else
      .ok (set_pr_status db pr.id "pending")

/-- `pr_delete` (lines 825-846): admin only; refused with the PO-dependents
conflict when `pr.purchase_orders` is non-empty; otherwise
`db.session.delete(pr)` removes the PR row. The `line_items` relationship of
line 69 is declared without any `delete` cascade, so SQLAlchemy de-associates
the PR's LineItems on flush — their nullable `pr_id` is set to NULL — rather
than deleting them. -/
def pr_delete (db : DB) (actor : User) (prid : Nat) : Except Err DB :=
  if actor.role != "admin" then .error .forbidden
  else
    match db.prs.find? (fun q => q.id == prid) with
    | none => .error .notFound
    | some pr =>
      match db.purchase_orders.filter (fun po => po.pr_id == pr.id) with
      | _ :: _ => .error .conflict
      | [] =>
        .ok { db with
          prs := db.prs.eraseP (fun q => q.id == pr.id),
          line_items := db.line_items.map (fun li =>
            if li.pr_id == some pr.id then { li with pr_id := none } else li) }

/-- One line of the PR-creation form: the values the `pr_new` loop reads. -/
structure NewItem where
  item_name : String
  quantity : Int
  unit : String
  unit_price : Rat
  deriving DecidableEq

/-- The next auto-increment primary key for a table whose used ids are `ids`. -/
def freshId (ids : List Nat) : Nat :=
  ids.foldr max 0 + 1

/-- The LineItem rows created by the `pr_new` loop (lines 290-298): one row
per form line, all attached to the new PR, with consecutive fresh ids. -/
def mk_line_items (prid base : Nat) : List NewItem → List LineItem
  | [] => []
  | it :: rest =>
    { id := base, pr_id := some prid, item_name := it.item_name,
      quantity := it.quantity, unit := it.unit,
      unit_price := it.unit_price } :: mk_line_items prid (base + 1) rest

/-- The PurchaseRequest row created by `pr_new` (lines 275-280): status
`draft`, and the cached `total` column left at its default `0.0` — the
handler never writes it. -/
def pr_new_pr (db : DB) (actor : User) (title descr : String) :
    PurchaseRequest :=
  { id := freshId (db.prs.map (·.id)), title := title, description := descr,
    created_by := actor.id, status := "draft", total := 0 }

/-- The store after `pr_new`'s two commits: the PR row plus its LineItems,
nothing else touched (in particular no Balance upsert). -/
def pr_new_db (db : DB) (actor : User) (title descr : String)
    (items : List NewItem) : DB :=
  { db with
    prs := db.prs ++ [pr_new_pr db actor title descr],
    line_items := db.line_items ++
      mk_line_items (freshId (db.prs.map (·.id)))
        (freshId (db.line_items.map (·.id))) items }

/-- `pr_new` (lines 264-307): refused unless the actor's role is `admin`,
`approver` or `requester`; creates the PR in status `draft`, attaches the
form's LineItems, and returns without any reconciliation call. Returns the
new PR's primary key alongside the new store. -/
def pr_new (db : DB) (actor : User) (title descr : String)
    (items : List NewItem) : Except Err (DB × Nat) :=
  if actor.role != "admin" && actor.role != "approver"
      && actor.role != "requester" then
    .error .forbidden
  else
    .ok (pr_new_db db actor title descr items, freshId (db.prs.map (·.id)))

/-- The grand total of `po_view` (lines 610-635): the sum of
`quotation_price` alone over the PR's POs. -/
def po_view_grand_total (db : DB) (prid : Nat) : Rat :=
  ((db.purchase_orders.filter (fun po => po.pr_id == prid)).map
    (·.quotation_price)).sum

/-- One supplier's subtotal in `po_view` (lines 622-625): the sum of
`quotation_price` over that supplier's group. -/
def po_view_supplier_total (db : DB) (prid : Nat) (supplier : String) : Rat :=
  ((db.purchase_orders.filter
      (fun po => po.pr_id == prid && po.supplier_name == supplier)).map
    (·.quotation_price)).sum

/-- The grand total of `po_list_by_pr` (lines 637-667): the accumulated sum of
`quotation_price * (po.item.quantity if po.item else 0)` over the PR's POs. -/
def po_list_grand_total (db : DB) (prid : Nat) : Rat :=
  ((db.purchase_orders.filter (fun po => po.pr_id == prid)).map
    (po_line_total db)).sum

/-- One supplier's subtotal in `po_list_by_pr` (lines 648-659): the
accumulated `line_total` over that supplier's group. -/
def po_list_supplier_total (db : DB) (prid : Nat) (supplier : String) : Rat :=
  ((db.purchase_orders.filter
      (fun po => po.pr_id == prid && po.supplier_name == supplier)).map
    (po_line_total db)).sum

/-- The three derived amount fields of the Balance row keyed by `prid`,
when such a row exists. -/
def balance_amounts (db : DB) (prid : Nat) : Option (Rat × Rat × Rat) :=
  (db.balances.find? (fun b => b.pr_id == prid)).map
    (fun b => (b.pr_total_amount, b.po_total_amount, b.balance_amount))

/-- The status of the PR with primary key `prid`, when it exists. -/
def pr_status (db : DB) (prid : Nat) : Option String :=
  (db.prs.find? (fun q => q.id == prid)).map (·.status)

theorem updateFirst_cons_pos {p : α → Bool} {f : α → α} {a : α} {l : List α}
    (h : p a = true) : updateFirst p f (a :: l) = f a :: l := by
  simp [updateFirst, h]

theorem updateFirst_cons_neg {p : α → Bool} {f : α → α} {a : α} {l : List α}
    (h : p a = false) : updateFirst p f (a :: l) = a :: updateFirst p f l := by
  simp [updateFirst, h]

theorem updateFirst_find? {p : α → Bool} {f : α → α} {l : List α} {x : α}
    (h : l.find? p = some x) (hfx : p (f x) = true) :
    (updateFirst p f l).find? p = some (f x) := by
  induction l with
  | nil => cases h
  | cons a l ih =>
    cases hpa : p a with
    | true =>
      rw [List.find?_cons_of_pos _ hpa] at h
      cases h
      rw [updateFirst_cons_pos hpa, List.find?_cons_of_pos _ hfx]
    | false =>
      rw [List.find?_cons_of_neg _ (by simp [hpa])] at h
      rw [updateFirst_cons_neg hpa,
        List.find?_cons_of_neg _ (by simp [hpa])]
      exact ih h

theorem updateFirst_id_of_first {p : α → Bool} {f : α → α} {l : List α} {x : α}
    (h : l.find? p = some x) (hfx : f x = x) : updateFirst p f l = l := by
  induction l with
  | nil => cases h
  | cons a l ih =>
    cases hpa : p a with
    | true =>
      rw [List.find?_cons_of_pos _ hpa] at h
      cases h
      rw [updateFirst_cons_pos hpa, hfx]
    | false =>
      rw [List.find?_cons_of_neg _ (by simp [hpa])] at h
      rw [updateFirst_cons_neg hpa, ih h]

theorem updateFirst_length (p : α → Bool) (f : α → α) (l : List α) :
    (updateFirst p f l).length = l.length := by
  induction l with
  | nil => rfl
  | cons a l ih =>
    cases hpa : p a with
    | true => rw [updateFirst_cons_pos hpa]; rfl
    | false => rw [updateFirst_cons_neg hpa]; simp [ih]

theorem updateFirst_filter_of_neg {p q : α → Bool} {f : α → α} {l : List α}
    (hpq : ∀ x, p x = true → q x = false) (hq : ∀ x, q (f x) = q x) :
    (updateFirst p f l).filter q = l.filter q := by
  induction l with
  | nil => rfl
  | cons a l ih =>
    cases hpa : p a with
    | true =>
      rw [updateFirst_cons_pos hpa]
      have h1 : q a = false := hpq a hpa
      have h2 : q (f a) = false := by rw [hq]; exact h1
      simp [List.filter_cons, h1, h2]
    | false =>
      rw [updateFirst_cons_neg hpa]
      simp [List.filter_cons, ih]

theorem update_balance_frame (db : DB) (prid : Nat) :
    (update_balance_for_pr db prid).prs = db.prs ∧
    (update_balance_for_pr db prid).line_items = db.line_items ∧
    (update_balance_for_pr db prid).purchase_orders = db.purchase_orders ∧
    (update_balance_for_pr db prid).approval_logs = db.approval_logs := by
  unfold update_balance_for_pr
  cases db.prs.find? (fun q => q.id == prid) with
  | none => exact ⟨rfl, rfl, rfl, rfl⟩
  | some pr =>
    cases db.balances.find? (fun b => b.pr_id == prid) with
    | none => exact ⟨rfl, rfl, rfl, rfl⟩
    | some b => exact ⟨rfl, rfl, rfl, rfl⟩

theorem balance_row_after (db : DB) (prid : Nat) (pr : PurchaseRequest)
    (hpr : db.prs.find? (fun q => q.id == prid) = some pr) :
    ∃ bal,
      (update_balance_for_pr db prid).balances.find?
          (fun b => b.pr_id == prid) = some bal ∧
      bal.pr_total_amount = pr_total_of db pr.id ∧
      bal.po_total_amount = po_total_of db pr.id ∧
      bal.balance_amount = pr_total_of db pr.id - po_total_of db pr.id ∧
      bal.pr_id = prid := by
  have hid : (pr.id == prid) = true := by
    have h := List.find?_some hpr
    exact h
  unfold update_balance_for_pr
  rw [hpr]
  cases hbal : db.balances.find? (fun b => b.pr_id == prid) with
  | none =>
    refine ⟨mk_balance pr (pr_total_of db pr.id) (po_total_of db pr.id),
      ?_, rfl, rfl, rfl, ?_⟩
    · show (db.balances ++ _).find? _ = _
      rw [List.find?_append, hbal, Option.none_or]
      rw [List.find?_cons_of_pos _ (by simpa [mk_balance] using hid)]
    · simpa [mk_balance] using hid
  | some b =>
    have hpb : (b.pr_id == prid) = true := by
      have h := List.find?_some hbal
      exact h
    refine ⟨{ b with pr_total_amount := pr_total_of db pr.id,
                     po_total_amount := po_total_of db pr.id,
                     balance_amount :=
                       pr_total_of db pr.id - po_total_of db pr.id },
      ?_, rfl, rfl, rfl, ?_⟩
    · exact updateFirst_find? hbal (by simpa using hpb)
    · simpa using hpb

theorem pr_total_of_congr {db db' : DB} (h : db'.line_items = db.line_items)
    (prid : Nat) : pr_total_of db' prid = pr_total_of db prid := by
  unfold pr_total_of pr_line_items
  rw [h]

theorem po_total_of_congr {db db' : DB} (hli : db'.line_items = db.line_items)
    (hpo : db'.purchase_orders = db.purchase_orders) (prid : Nat) :
    po_total_of db' prid = po_total_of db prid := by
  have hplt : po_line_total db' = po_line_total db := by
    funext po
    unfold po_line_total po_item
    rw [hli]
  unfold po_total_of pr_purchase_orders
  rw [hplt, hpo]

theorem update_balance_eq (db : DB) (prid : Nat) (pr : PurchaseRequest)
    (hpr : db.prs.find? (fun q => q.id == prid) = some pr) :
    update_balance_for_pr db prid =
      { db with balances :=
          match db.balances.find? (fun b => b.pr_id == prid) with
          | none => db.balances ++
              [mk_balance pr (pr_total_of db pr.id) (po_total_of db pr.id)]
          | some _ =>
            updateFirst (fun b => b.pr_id == prid)
              (fun b => { b with
                pr_total_amount := pr_total_of db pr.id,
                po_total_amount := po_total_of db pr.id,
                balance_amount :=
                  pr_total_of db pr.id - po_total_of db pr.id })
              db.balances } := by
  unfold update_balance_for_pr
  rw [hpr]

/-- A concrete actor: the creator of the sample PR. -/
def sampleUser : User :=
  { id := 7, role := "requester" }

/-- A concrete PR whose cached `total` (100) disagrees with its line items. -/
def samplePR : PurchaseRequest :=
  { id := 1, title := "Act", description := "d", created_by := 7,
    status := "approved", total := 100 }

/-- A concrete store realising the worked scenario of spec section 8:
line items (qty 2, price 10) and (qty 1, price 5), POs quoting 9 and 6
against them, so pr_total 25, po_total 24, balance 1. -/
def sampleDB : DB :=
  { prs := [samplePR]
    line_items :=
      [ { id := 1, pr_id := some 1, item_name := "a", quantity := 2,
          unit := "pcs", unit_price := 10 }
      , { id := 2, pr_id := some 1, item_name := "b", quantity := 1,
          unit := "pcs", unit_price := 5 } ]
    purchase_orders :=
      [ { id := 1, pr_id := 1, item_id := 1, supplier_name := "S",
          quotation_price := 9, brand_name := none }
      , { id := 2, pr_id := 1, item_id := 2, supplier_name := "T",
          quotation_price := 6, brand_name := none } ]
    balances := []
    approval_logs := [] }

/-- Like `sampleDB` but the second PO's `item_id` (99) is dangling: its
linked LineItem is missing. -/
def sampleDB2 : DB :=
  { sampleDB with
    purchase_orders :=
      [ { id := 1, pr_id := 1, item_id := 1, supplier_name := "S",
          quotation_price := 9, brand_name := none }
      , { id := 2, pr_id := 1, item_id := 99, supplier_name := "T",
          quotation_price := 6, brand_name := none } ] }

/-- C1: after any `update_balance_for_pr` call on an existing PR, the Balance
row keyed by that `pr_id` satisfies
`balance_amount = pr_total_amount - po_total_amount`; the (signed) balance is
set only from the two totals, never independently. -/
theorem c1_balance_amount_eq_totals_sub (db : DB) (prid : Nat)
    (pr : PurchaseRequest)
    (hpr : db.prs.find? (fun q => q.id == prid) = some pr) :
    ∃ bal,
      (update_balance_for_pr db prid).balances.find?
          (fun b => b.pr_id == prid) = some bal ∧
      bal.balance_amount = bal.pr_total_amount - bal.po_total_amount := by
  obtain ⟨bal, h1, h2, h3, h4, _⟩ := balance_row_after db prid pr hpr
  exact ⟨bal, h1, by rw [h2, h3, h4]⟩

/-- C1 witness: the theorem instantiated at the concrete store `sampleDB`. -/
theorem c1_balance_amount_eq_totals_sub_witness :
    ∃ bal,
      (update_balance_for_pr sampleDB 1).balances.find?
          (fun b => b.pr_id == 1) = some bal ∧
      bal.balance_amount = bal.pr_total_amount - bal.po_total_amount :=
  c1_balance_amount_eq_totals_sub sampleDB 1 samplePR (by decide)

/-- C2: the reconciled `pr_total_amount` is recomputed as the sum of
`quantity * unit_price` over the LineItems currently linked to the PR —
regardless of the PR's cached `total` column — and a PR with zero LineItems
gets `pr_total_amount = 0`. -/
theorem c2_pr_total_recomputed (db : DB) (prid : Nat) (pr : PurchaseRequest)
    (hpr : db.prs.find? (fun q => q.id == prid) = some pr) :
    ∃ bal,
      (update_balance_for_pr db prid).balances.find?
          (fun b => b.pr_id == prid) = some bal ∧
      bal.pr_total_amount = ((pr_line_items db prid).map subtotal).sum ∧
      (pr_line_items db prid = [] → bal.pr_total_amount = 0) := by
  have hid : pr.id = prid := by
    have h := List.find?_some hpr
    simpa using h
  obtain ⟨bal, h1, h2, _, _, _⟩ := balance_row_after db prid pr hpr
  rw [hid] at h2
  refine ⟨bal, h1, h2, fun he => ?_⟩
  rw [h2]
  unfold pr_total_of
  rw [he]
  rfl

/-- C2 witness: at `sampleDB` the cached total is 100 yet the reconciled
`pr_total_amount` is the line-item sum 25, and a second store with an
item-less PR gets 0. -/
theorem c2_pr_total_recomputed_witness :
    (∃ bal,
      (update_balance_for_pr sampleDB 1).balances.find?
          (fun b => b.pr_id == 1) = some bal ∧
      bal.pr_total_amount = ((pr_line_items sampleDB 1).map subtotal).sum ∧
      (pr_line_items sampleDB 1 = [] → bal.pr_total_amount = 0)) ∧
    ((pr_line_items sampleDB 1).map subtotal).sum = 25 ∧
    samplePR.total = 100 :=
  ⟨c2_pr_total_recomputed sampleDB 1 samplePR (by decide),
   by norm_num [pr_line_items, sampleDB, samplePR, subtotal, List.sum],
   by norm_num [samplePR]⟩

/-- C3: the reconciled `po_total_amount` is the sum over the PR's
PurchaseOrders of `quotation_price *` the linked LineItem's quantity, a PO
with a dangling `item_id` contributing a zero quantity factor; the
computation is total (it never errors on a missing linked LineItem). -/
theorem c3_po_total_formula (db : DB) (prid : Nat) (pr : PurchaseRequest)
    (hpr : db.prs.find? (fun q => q.id == prid) = some pr) :
    ∃ bal,
      (update_balance_for_pr db prid).balances.find?
          (fun b => b.pr_id == prid) = some bal ∧
      bal.po_total_amount =
        ((pr_purchase_orders db prid).map (fun po =>
          po.quotation_price *
            (match po_item db po with
             | some li => (li.quantity : Rat)
             | none => 0))).sum ∧
      (∀ po, po_item db po = none → po_line_total db po = 0) := by
  have hid : pr.id = prid := by
    have h := List.find?_some hpr
    simpa using h
  obtain ⟨bal, h1, _, h3, _, _⟩ := balance_row_after db prid pr hpr
  rw [hid] at h3
  refine ⟨bal, h1, h3, fun po hnone => ?_⟩
  unfold po_line_total
  rw [hnone]
  exact mul_zero _

/-- C3 witness: at a store whose second PO has a dangling `item_id`, the
reconciled `po_total_amount` counts `9 * 2` for the intact PO and `0` for the
dangling one. -/
theorem c3_po_total_formula_witness :
    (∃ bal,
      (update_balance_for_pr sampleDB2 1).balances.find?
          (fun b => b.pr_id == 1) = some bal ∧
      bal.po_total_amount =
        ((pr_purchase_orders sampleDB2 1).map (fun po =>
          po.quotation_price *
            (match po_item sampleDB2 po with
             | some li => (li.quantity : Rat)
             | none => 0))).sum ∧
      (∀ po, po_item sampleDB2 po = none → po_line_total sampleDB2 po = 0)) ∧
    ((pr_purchase_orders sampleDB2 1).map (fun po =>
       po.quotation_price *
         (match po_item sampleDB2 po with
          | some li => (li.quantity : Rat)
          | none => 0))).sum = 18 :=
  ⟨c3_po_total_formula sampleDB2 1 samplePR (by decide),
   by norm_num [pr_purchase_orders, po_item, sampleDB2, sampleDB, samplePR,
     List.sum]⟩

/-- C4: reconciliation is idempotent — a second `update_balance_for_pr` with
no intervening mutation of LineItems, PurchaseOrders or the PR is a no-op on
the whole store — and the three amount fields in the Balance row it leaves
behind do not depend on the prior Balance table. -/
theorem c4_update_balance_idempotent (db : DB) (prid : Nat)
    (bals : List Balance)
    (hpr : (db.prs.find? (fun q => q.id == prid)).isSome) :
    update_balance_for_pr (update_balance_for_pr db prid) prid =
      update_balance_for_pr db prid ∧
    balance_amounts (update_balance_for_pr { db with balances := bals } prid)
        prid =
      balance_amounts (update_balance_for_pr db prid) prid := by
  obtain ⟨pr, hpr'⟩ := Option.isSome_iff_exists.mp hpr
  obtain ⟨hprs, hli, hpo, _⟩ := update_balance_frame db prid
  obtain ⟨bal, h1, h2, h3, h4, h5⟩ := balance_row_after db prid pr hpr'
  constructor
  · have hfind2 : (update_balance_for_pr db prid).prs.find?
        (fun q => q.id == prid) = some pr := by rw [hprs]; exact hpr'
    have ht : pr_total_of (update_balance_for_pr db prid) pr.id
        = pr_total_of db pr.id := pr_total_of_congr hli pr.id
    have hp : po_total_of (update_balance_for_pr db prid) pr.id
        = po_total_of db pr.id := po_total_of_congr hli hpo pr.id
    rw [update_balance_eq (update_balance_for_pr db prid) prid pr hfind2]
    rw [h1]
    simp only [ht, hp]
    have hfb : (fun b => { b with
        pr_total_amount := pr_total_of db pr.id,
        po_total_amount := po_total_of db pr.id,
        balance_amount :=
          pr_total_of db pr.id - po_total_of db pr.id }) bal = bal := by
      cases bal
      simp_all
    rw [updateFirst_id_of_first h1 hfb]
  · obtain ⟨bal2, g1, g2, g3, g4, g5⟩ :=
      balance_row_after { db with balances := bals } prid pr hpr'
    unfold balance_amounts
    rw [h1, g1]
    simp only [Option.map_some']
    have e2 : pr_total_of { db with balances := bals } pr.id
        = pr_total_of db pr.id := rfl
    have e3 : po_total_of { db with balances := bals } pr.id
        = po_total_of db pr.id := rfl
    rw [g2, g3, g4, h2, h3, h4, e2, e3]

/-- C4 witness: the theorem instantiated at `sampleDB`, with a stale prior
Balance table substituted in the second component. -/
theorem c4_update_balance_idempotent_witness :
    update_balance_for_pr (update_balance_for_pr sampleDB 1) 1 =
      update_balance_for_pr sampleDB 1 ∧
    balance_amounts
        (update_balance_for_pr
          { sampleDB with balances :=
              [{ activity_name := "stale", pr_total_amount := 1,
                 po_total_amount := 2, balance_amount := 3,
                 user_id := 9, pr_id := 1 }] } 1) 1 =
      balance_amounts (update_balance_for_pr sampleDB 1) 1 :=
  c4_update_balance_idempotent sampleDB 1
    [{ activity_name := "stale", pr_total_amount := 1, po_total_amount := 2,
       balance_amount := 3, user_id := 9, pr_id := 1 }] (by decide)

/-- C5: `update_balance_for_pr` upserts the single Balance row keyed by
`pr_id`: when no row exists, exactly one row with every field set is appended;
when a row exists, only its three amount fields are overwritten in place —
`activity_name` and `user_id` keep their creation-time values even if the
PR's title or creator has since changed — and the row count and every row
with a different `pr_id` are untouched. -/
theorem c5_balance_upsert_frame (db : DB) (prid : Nat) (pr : PurchaseRequest)
    (hpr : db.prs.find? (fun q => q.id == prid) = some pr) :
    (db.balances.find? (fun x => x.pr_id == prid) = none →
      (update_balance_for_pr db prid).balances =
        db.balances ++
          [{ activity_name := pr.title,
             pr_total_amount := pr_total_of db pr.id,
             po_total_amount := po_total_of db pr.id,
             balance_amount := pr_total_of db pr.id - po_total_of db pr.id,
             user_id := pr.created_by, pr_id := pr.id }]) ∧
    (∀ b, db.balances.find? (fun x => x.pr_id == prid) = some b →
      (update_balance_for_pr db prid).balances.length =
          db.balances.length ∧
      (update_balance_for_pr db prid).balances.find?
          (fun x => x.pr_id == prid) =
        some { b with
          pr_total_amount := pr_total_of db pr.id,
          po_total_amount := po_total_of db pr.id,
          balance_amount := pr_total_of db pr.id - po_total_of db pr.id } ∧
      (update_balance_for_pr db prid).balances.filter
          (fun x => !(x.pr_id == prid)) =
        db.balances.filter (fun x => !(x.pr_id == prid))) := by
  rw [update_balance_eq db prid pr hpr]
  constructor
  · intro hnone
    rw [hnone]
    rfl
  · intro b hb
    rw [hb]
    have hpb : (b.pr_id == prid) = true := by
      have h := List.find?_some hb
      exact h
    refine ⟨updateFirst_length _ _ _, ?_, ?_⟩
    · exact updateFirst_find? hb (by simpa using hpb)
    · exact updateFirst_filter_of_neg
        (fun x hx => by simp [hx]) (fun x => rfl)

/-- A store like `sampleDB` but holding a stale Balance row for PR 1 (created
under an old title and owner) plus an unrelated row for PR 2. -/
def dbC5 : DB :=
  { sampleDB with balances :=
      [ { activity_name := "Old", pr_total_amount := 0, po_total_amount := 0,
          balance_amount := 0, user_id := 99, pr_id := 1 }
      , { activity_name := "other", pr_total_amount := 4,
          po_total_amount := 4, balance_amount := 0, user_id := 5,
          pr_id := 2 } ] }

/-- C5 witness: updating `dbC5` keeps both rows, rewrites only the amount
fields of the row keyed 1 (its stale `activity_name`/`user_id` survive), and
leaves the PR-2 row untouched. -/
theorem c5_balance_upsert_frame_witness :
    (update_balance_for_pr dbC5 1).balances.length =
        dbC5.balances.length ∧
    (update_balance_for_pr dbC5 1).balances.find? (fun x => x.pr_id == 1) =
      some { activity_name := "Old",
             pr_total_amount := pr_total_of dbC5 1,
             po_total_amount := po_total_of dbC5 1,
             balance_amount := pr_total_of dbC5 1 - po_total_of dbC5 1,
             user_id := 99, pr_id := 1 } ∧
    (update_balance_for_pr dbC5 1).balances.filter
        (fun x => !(x.pr_id == 1)) =
      dbC5.balances.filter (fun x => !(x.pr_id == 1)) :=
  (c5_balance_upsert_frame dbC5 1 samplePR (by decide)).2
    { activity_name := "Old", pr_total_amount := 0, po_total_amount := 0,
      balance_amount := 0, user_id := 99, pr_id := 1 } (by decide)

theorem pr_status_set (db : DB) (prid : Nat) (s : String)
    (pr : PurchaseRequest)
    (hpr : db.prs.find? (fun q => q.id == prid) = some pr) :
    pr_status (set_pr_status db prid s) prid = some s := by
  unfold pr_status set_pr_status
  have hfx : ((fun q => q.id == prid)
      ({ pr with status := s } : PurchaseRequest)) = true := by
    have h := List.find?_some hpr
    simpa using h
  show ((updateFirst (fun q => q.id == prid)
      (fun q => { q with status := s }) db.prs).find?
        (fun q => q.id == prid)).map (·.status) = some s
  rw [updateFirst_find? hpr hfx]
  rfl

/-- C6: for an actor whose role is `approver` or `admin` and any action
string, `pr_approve` on an existing PR succeeds and appends exactly one
ApprovalLog row recording the raw action string; the PR's status changes only
for the literal actions `"approve"` (to approved) and `"reject"` (to
rejected); any other action (e.g. `"banana"`) leaves every PR row unchanged
while still appending the log row. -/
theorem c6_pr_approve_permissive (db : DB) (actor : User) (prid : Nat)
    (action comment : String) (pr : PurchaseRequest)
    (hrole : actor.role = "approver" ∨ actor.role = "admin")
    (hpr : db.prs.find? (fun q => q.id == prid) = some pr) :
    ∃ db', pr_approve db actor prid action comment = .ok db' ∧
      db'.approval_logs = db.approval_logs ++
        [{ pr_id := prid, user_id := actor.id, action := action,
           comment := comment }] ∧
      (action = "approve" → pr_status db' prid = some "approved") ∧
      (action = "reject" → pr_status db' prid = some "rejected") ∧
      (action ≠ "approve" → action ≠ "reject" → db'.prs = db.prs) := by
  have hid : pr.id = prid := by
    have h := List.find?_some hpr
    simpa using h
  subst hid
  have hc : (actor.role != "approver" && actor.role != "admin") = false := by
    rcases hrole with h | h <;> simp [h]
  by_cases ha : action = "approve"
  · subst ha
    have hres : pr_approve db actor pr.id "approve" comment =
        .ok { set_pr_status db pr.id "approved" with
              approval_logs := db.approval_logs ++
                [{ pr_id := pr.id, user_id := actor.id,
                   action := "approve", comment := comment }] } := by
      rw [pr_approve.eq_def, hpr]
      simp [hc]
      rfl
    refine ⟨_, hres, rfl, fun _ => ?_, fun h => ?_, fun h _ => ?_⟩
    · show pr_status (set_pr_status db pr.id "approved") pr.id
        = some "approved"
      exact pr_status_set db pr.id "approved" pr hpr
    · exact absurd h (by decide)
    · exact absurd rfl h
  · by_cases hb : action = "reject"
    · subst hb
      have hres : pr_approve db actor pr.id "reject" comment =
          .ok { set_pr_status db pr.id "rejected" with
                approval_logs := db.approval_logs ++
                  [{ pr_id := pr.id, user_id := actor.id,
                     action := "reject", comment := comment }] } := by
        rw [pr_approve.eq_def, hpr]
        simp [hc]
        rfl
      refine ⟨_, hres, rfl, fun h => ?_, fun _ => ?_, fun _ h => ?_⟩
      · exact absurd h (by decide)
      · show pr_status (set_pr_status db pr.id "rejected") pr.id
          = some "rejected"
        exact pr_status_set db pr.id "rejected" pr hpr
      · exact absurd rfl h
    · have hba : (action == "approve") = false := by
        simpa using ha
      have hbb : (action == "reject") = false := by
        simpa using hb
      have hres : pr_approve db actor pr.id action comment =
          .ok { db with
                approval_logs := db.approval_logs ++
                  [{ pr_id := pr.id, user_id := actor.id,
                     action := action, comment := comment }] } := by
        rw [pr_approve.eq_def, hpr]
        simp [hc, hba, hbb]
      exact ⟨_, hres, rfl, fun h => absurd h ha, fun h => absurd h hb,
        fun _ _ => rfl⟩

/-- C6 witness: an approver issuing the action `"banana"` on the sample store
gets the log row appended and no status change. -/
theorem c6_pr_approve_permissive_witness :
    ∃ db', pr_approve sampleDB { id := 3, role := "approver" } 1
        "banana" "c" = .ok db' ∧
      db'.approval_logs = sampleDB.approval_logs ++
        [{ pr_id := 1, user_id := 3, action := "banana", comment := "c" }] ∧
      ("banana" = "approve" → pr_status db' 1 = some "approved") ∧
      ("banana" = "reject" → pr_status db' 1 = some "rejected") ∧
      ("banana" ≠ "approve" → "banana" ≠ "reject" →
        db'.prs = sampleDB.prs) :=
  c6_pr_approve_permissive sampleDB { id := 3, role := "approver" } 1
    "banana" "c" samplePR (Or.inl rfl) (by decide)

theorem find?_eraseP_eq_none {k : α → Nat} {l : List α} {n : Nat}
    (h : (l.map k).Nodup) :
    (l.eraseP (fun x => k x == n)).find? (fun x => k x == n) = none := by
  induction l with
  | nil => rfl
  | cons a l ih =>
    rw [List.map_cons, List.nodup_cons] at h
    obtain ⟨hka, hl⟩ := h
    cases hpa : (k a == n) with
    | true =>
      have e : (a :: l).eraseP (fun x => k x == n) = l :=
        List.eraseP_cons_of_pos hpa
      rw [e]
      apply List.find?_eq_none.mpr
      intro x hx hkx
      have h1 : k a = n := by simpa using hpa
      have h2 : k x = n := by simpa using hkx
      exact hka (h1 ▸ h2 ▸ List.mem_map_of_mem k hx)
    | false =>
      have e : (a :: l).eraseP (fun x => k x == n) =
          a :: l.eraseP (fun x => k x == n) :=
        List.eraseP_cons_of_neg (by simp [hpa])
      rw [e]
      rw [List.find?_cons_of_neg _ (by simp [hpa])]
      exact ih hl

/-- A store whose only PR (id 1) has one LineItem and no POs. -/
def dbC7 : DB :=
  { prs := [samplePR]
    line_items :=
      [{ id := 1, pr_id := some 1, item_name := "a", quantity := 2,
         unit := "pcs", unit_price := 10 }]
    purchase_orders := []
    balances := []
    approval_logs := [] }

/-- A concrete admin actor. -/
def adminU : User :=
  { id := 2, role := "admin" }

/-- C7 counterexample: on `dbC7` (one PR, one LineItem, zero POs) the delete
succeeds and removes the PR, but the PR's LineItem row is NOT deleted — it
survives with its `pr_id` cleared — refuting the claim that the delete
cascade-deletes all of the PR's LineItems. -/
theorem c7_delete_does_not_cascade_cex :
    ∃ db', pr_delete dbC7 adminU 1 = .ok db' ∧
      db'.prs = [] ∧
      db'.line_items =
        [{ id := 1, pr_id := none, item_name := "a", quantity := 2,
           unit := "pcs", unit_price := 10 }] ∧
      db'.line_items ≠ [] :=
  ⟨_, rfl, rfl, rfl, by decide⟩

/-- C7 (amended): for an admin actor and an existing PR (with primary keys
unique), `pr_delete` fails with the Conflict error — leaving the store
untouched — whenever at least one PurchaseOrder references the PR; with zero
referencing POs it succeeds, removes exactly the PR row, deletes no LineItem
row, and merely de-associates the PR's LineItems (no surviving row references
the deleted PR, and rows that never referenced it survive unchanged). -/
theorem c7_pr_delete_spec (db : DB) (actor : User) (prid : Nat)
    (pr : PurchaseRequest)
    (hrole : actor.role = "admin")
    (hpr : db.prs.find? (fun q => q.id == prid) = some pr)
    (hnodup : (db.prs.map (·.id)).Nodup) :
    (db.purchase_orders.filter (fun po => po.pr_id == prid) ≠ [] →
      pr_delete db actor prid = .error .conflict) ∧
    (db.purchase_orders.filter (fun po => po.pr_id == prid) = [] →
      ∃ db', pr_delete db actor prid = .ok db' ∧
        db'.prs.find? (fun q => q.id == prid) = none ∧
        db'.prs.length = db.prs.length - 1 ∧
        db'.line_items.length = db.line_items.length ∧
        (∀ li ∈ db'.line_items, li.pr_id ≠ some prid) ∧
        (∀ li ∈ db.line_items, li.pr_id ≠ some prid →
          li ∈ db'.line_items)) := by
  have hid : pr.id = prid := by
    have h := List.find?_some hpr
    simpa using h
  subst hid
  have hrl : (actor.role != "admin") = false := by simp [hrole]
  constructor
  · intro hpos
    rw [pr_delete.eq_def, hrl, hpr]
    simp only [Bool.false_eq_true, if_false]
    cases hftr : db.purchase_orders.filter (fun po => po.pr_id == pr.id) with
    | nil => exact absurd hftr hpos
    | cons a l => rfl
  · intro hzero
    rw [pr_delete.eq_def, hrl, hpr]
    simp only [Bool.false_eq_true, if_false]
    rw [hzero]
    refine ⟨_, rfl, ?_, ?_, ?_, ?_, ?_⟩
    · exact find?_eraseP_eq_none hnodup
    · have hmem := List.mem_of_find?_eq_some hpr
      have hp := List.find?_some hpr
      exact List.length_eraseP_of_mem hmem hp
    · exact List.length_map _ _
    · intro li hli
      rw [List.mem_map] at hli
      obtain ⟨x, hx, hfx⟩ := hli
      by_cases hxp : (x.pr_id == some pr.id) = true
      · rw [if_pos hxp] at hfx
        rw [← hfx]
        simp
      · rw [if_neg hxp] at hfx
        rw [← hfx]
        simpa using hxp
    · intro li hli hne
      exact List.mem_map.mpr ⟨li, hli, by simp [hne]⟩

/-- C7 witness: on `dbC7` (zero POs) the amended theorem's success branch
applies; on `dbC7` with one PO added, its conflict branch applies. -/
theorem c7_pr_delete_spec_witness :
    (∃ db', pr_delete dbC7 adminU 1 = .ok db' ∧
      db'.prs.find? (fun q => q.id == 1) = none ∧
      db'.prs.length = dbC7.prs.length - 1 ∧
      db'.line_items.length = dbC7.line_items.length ∧
      (∀ li ∈ db'.line_items, li.pr_id ≠ some 1) ∧
      (∀ li ∈ dbC7.line_items, li.pr_id ≠ some 1 →
        li ∈ db'.line_items)) ∧
    pr_delete
        { dbC7 with purchase_orders :=
            [{ id := 1, pr_id := 1, item_id := 1, supplier_name := "S",
               quotation_price := 9, brand_name := none }] } adminU 1 =
      .error .conflict :=
  ⟨(c7_pr_delete_spec dbC7 adminU 1 samplePR rfl (by decide)
      (by decide)).2 rfl,
   (c7_pr_delete_spec
      { dbC7 with purchase_orders :=
          [{ id := 1, pr_id := 1, item_id := 1, supplier_name := "S",
             quotation_price := 9, brand_name := none }] } adminU 1 samplePR
      rfl (by decide) (by decide)).1 (by decide)⟩

/-- The PR of `dbC8`: already approved, created by user 7. -/
def prC8 : PurchaseRequest :=
  { id := 1, title := "t", description := "d", created_by := 7,
    status := "approved", total := 0 }

/-- A store whose only PR is already `approved`. -/
def dbC8 : DB :=
  { prs := [prC8]
    line_items := []
    purchase_orders := []
    balances := []
    approval_logs := [] }

/-- C8 counterexample: the creator (role `requester`) submits the already
approved PR 1 of `dbC8` and its status becomes `pending`: `pr_submit` has no
guard on the current status, refuting the claim that for a PR whose status is
not `draft` submit leaves the status unchanged. -/
theorem c8_submit_no_draft_guard_cex :
    pr_status dbC8 1 = some "approved" ∧
    ∃ db', pr_submit dbC8 { id := 7, role := "requester" } 1 = .ok db' ∧
      pr_status db' 1 = some "pending" :=
  ⟨rfl, ⟨_, rfl, rfl⟩⟩

/-- C8 (amended): `pr_submit` sets PR.status to `pending` whenever the actor
is the PR's creator and has role `requester` — regardless of the PR's current
status, which the source never checks — and otherwise refuses with a
Forbidden error, leaving the store untouched. -/
theorem c8_pr_submit_spec (db : DB) (actor : User) (prid : Nat)
    (pr : PurchaseRequest)
    (hpr : db.prs.find? (fun q => q.id == prid) = some pr) :
    (pr.created_by = actor.id ∧ actor.role = "requester" →
      pr_submit db actor prid = .ok (set_pr_status db prid "pending") ∧
      pr_status (set_pr_status db prid "pending") prid = some "pending") ∧
    (¬(pr.created_by = actor.id ∧ actor.role = "requester") →
      pr_submit db actor prid = .error .forbidden) := by
  have hid : pr.id = prid := by
    have h := List.find?_some hpr
    simpa using h
  subst hid
  constructor
  · rintro ⟨h1, h2⟩
    have hcond : (pr.created_by != actor.id
        || actor.role != "requester") = false := by
      simp [h1, h2]
    constructor
    · rw [pr_submit.eq_def, hpr]
      simp [hcond]
    · exact pr_status_set db pr.id "pending" pr hpr
  · intro hn
    have hcond : (pr.created_by != actor.id
        || actor.role != "requester") = true := by
      rcases not_and_or.mp hn with h | h <;> simp [bne_iff_ne, h]
    rw [pr_submit.eq_def, hpr]
    simp [hcond]

/-- C8 witness: the creator-requester's submit on the approved PR succeeds
and lands at `pending`; a non-creator approver is refused. -/
theorem c8_pr_submit_spec_witness :
    (pr_submit dbC8 { id := 7, role := "requester" } 1 =
        .ok (set_pr_status dbC8 1 "pending") ∧
      pr_status (set_pr_status dbC8 1 "pending") 1 = some "pending") ∧
    pr_submit dbC8 { id := 8, role := "approver" } 1 = .error .forbidden :=
  ⟨(c8_pr_submit_spec dbC8 { id := 7, role := "requester" } 1 prC8
      (by decide)).1 ⟨rfl, rfl⟩,
   (c8_pr_submit_spec dbC8 { id := 8, role := "approver" } 1 prC8
      (by decide)).2 (by decide)⟩

/-- C9: the two PO aggregation call sites are not equivalent: `po_view` sums
`quotation_price` alone while `po_list_by_pr` sums
`quotation_price * linked quantity`, so some store with a PO whose linked
LineItem quantity is not 1 makes the two grand totals (and the affected
supplier's subtotals) differ. -/
theorem c9_po_aggregations_differ :
    ∃ (db : DB) (prid : Nat) (po : PurchaseOrder) (li : LineItem),
      po ∈ db.purchase_orders ∧ po.pr_id = prid ∧
      po_item db po = some li ∧ li.quantity ≠ 1 ∧
      po_view_grand_total db prid ≠ po_list_grand_total db prid ∧
      po_view_supplier_total db prid po.supplier_name ≠
        po_list_supplier_total db prid po.supplier_name := by
  refine ⟨sampleDB, 1,
    { id := 1, pr_id := 1, item_id := 1, supplier_name := "S",
      quotation_price := 9, brand_name := none },
    { id := 1, pr_id := some 1, item_name := "a", quantity := 2,
      unit := "pcs", unit_price := 10 },
    by decide, rfl, by decide, by decide, ?_, ?_⟩
  · norm_num [po_view_grand_total, po_list_grand_total, po_line_total,
      po_item, sampleDB, samplePR, List.sum]
  · have hTS : (("T" : String) == "S") = false := by decide
    norm_num [po_view_supplier_total, po_list_supplier_total, po_line_total,
      po_item, sampleDB, samplePR, List.sum, hTS]

theorem le_foldr_max (l : List Nat) : ∀ x ∈ l, x ≤ l.foldr max 0 := by
  induction l with
  | nil => intro x hx; cases hx
  | cons a l ih =>
    intro x hx
    rcases List.mem_cons.mp hx with h | h
    · subst h; exact Nat.le_max_left _ _
    · exact Nat.le_trans (ih x h) (Nat.le_max_right _ _)

theorem freshId_not_mem (l : List Nat) : freshId l ∉ l := by
  intro h
  have h1 := le_foldr_max l _ h
  unfold freshId at h1
  omega

theorem mk_line_items_filter (prid base : Nat) (items : List NewItem) :
    (mk_line_items prid base items).filter
      (fun li => li.pr_id == some prid) = mk_line_items prid base items := by
  induction items generalizing base with
  | nil => rfl
  | cons it rest ih =>
    show List.filter _ (_ :: _) = _
    rw [List.filter_cons]
    simp only [beq_self_eq_true, if_true]
    rw [ih]
    rfl

theorem mk_line_items_subtotal (prid base : Nat) (items : List NewItem) :
    (mk_line_items prid base items).map subtotal =
      items.map (fun it => (it.quantity : Rat) * it.unit_price) := by
  induction items generalizing base with
  | nil => rfl
  | cons it rest ih =>
    show List.map _ (_ :: _) = _
    rw [List.map_cons, ih]
    rfl

/-- C10: creating a PR attaches its LineItems but never computes the cached
`PR.total` (the column default 0.0 stands) and triggers no reconciliation
(the Balance table is untouched); hence `compute_pr_total`, which prefers the
cached total, returns 0 for the fresh PR — not the line-item sum, whenever
that sum is nonzero. -/
theorem c10_pr_new_total_stays_zero (db : DB) (actor : User)
    (title descr : String) (items : List NewItem)
    (hrole : actor.role = "admin" ∨ actor.role = "approver" ∨
      actor.role = "requester")
    (hfresh : ∀ li ∈ db.line_items,
      li.pr_id ≠ some (freshId (db.prs.map (·.id)))) :
    ∃ db' pid, pr_new db actor title descr items = .ok (db', pid) ∧
      (db'.prs.find? (fun q => q.id == pid)).map (·.total) = some 0 ∧
      pr_status db' pid = some "draft" ∧
      db'.balances = db.balances ∧
      compute_pr_total db' pid = 0 ∧
      ((pr_line_items db' pid).map subtotal).sum =
        (items.map (fun it => (it.quantity : Rat) * it.unit_price)).sum ∧
      ((items.map (fun it => (it.quantity : Rat) * it.unit_price)).sum ≠ 0 →
        compute_pr_total db' pid ≠
          ((pr_line_items db' pid).map subtotal).sum) := by
  have hc : (actor.role != "admin" && actor.role != "approver"
      && actor.role != "requester") = false := by
    rcases hrole with h | h | h <;> simp [h]
  have hres : pr_new db actor title descr items =
      .ok (pr_new_db db actor title descr items,
           freshId (db.prs.map (·.id))) := by
    rw [pr_new.eq_def]
    simp only [hc, Bool.false_eq_true, if_false]
  have hold : db.prs.find?
      (fun q => q.id == freshId (db.prs.map (·.id))) = none := by
    apply List.find?_eq_none.mpr
    intro x hx hbeq
    have hxid : x.id = freshId (db.prs.map (·.id)) := by simpa using hbeq
    exact freshId_not_mem (db.prs.map (·.id))
      (hxid ▸ List.mem_map_of_mem (·.id) hx)
  have hfind : (pr_new_db db actor title descr items).prs.find?
      (fun q => q.id == freshId (db.prs.map (·.id))) =
      some (pr_new_pr db actor title descr) := by
    show (db.prs ++ [pr_new_pr db actor title descr]).find? _ = _
    rw [List.find?_append, hold, Option.none_or]
    rw [List.find?_cons_of_pos _ (by simp [pr_new_pr])]
  have hsum : ((pr_line_items (pr_new_db db actor title descr items)
      (freshId (db.prs.map (·.id)))).map subtotal).sum =
      (items.map (fun it => (it.quantity : Rat) * it.unit_price)).sum := by
    unfold pr_line_items
    show ((List.filter _ (db.line_items ++ _)).map subtotal).sum = _
    rw [List.filter_append]
    rw [List.filter_eq_nil_iff.mpr
      (fun li hli => by simpa using hfresh li hli)]
    rw [List.nil_append, mk_line_items_filter, mk_line_items_subtotal]
  have htot : compute_pr_total (pr_new_db db actor title descr items)
      (freshId (db.prs.map (·.id))) = 0 := by
    unfold compute_pr_total
    rw [hfind]
    rfl
  refine ⟨pr_new_db db actor title descr items,
    freshId (db.prs.map (·.id)), hres, ?_, ?_, rfl, htot, hsum, ?_⟩
  · rw [hfind]
    rfl
  · unfold pr_status
    rw [hfind]
    rfl
  · intro hnz
    rw [hsum, htot]
    exact fun h0 => hnz h0.symm

/-- C10 witness: from an empty store, a requester creates a PR with one line
(qty 2, unit price 3): the line-item sum is 6 ≠ 0, yet the cached total and
`compute_pr_total` are 0 and no Balance row appears. -/
theorem c10_pr_new_total_stays_zero_witness :
    ∃ db' pid,
      pr_new { prs := [], line_items := [], purchase_orders := [],
               balances := [], approval_logs := [] }
          { id := 7, role := "requester" } "t" "d"
          [{ item_name := "a", quantity := 2, unit := "pcs",
             unit_price := 3 }] = .ok (db', pid) ∧
      (db'.prs.find? (fun q => q.id == pid)).map (·.total) = some 0 ∧
      pr_status db' pid = some "draft" ∧
      db'.balances =
        ({ prs := [], line_items := [], purchase_orders := [],
           balances := [], approval_logs := [] } : DB).balances ∧
      compute_pr_total db' pid = 0 ∧
      ((pr_line_items db' pid).map subtotal).sum =
        ([({ item_name := "a", quantity := 2, unit := "pcs",
             unit_price := 3 } : NewItem)].map
          (fun it => (it.quantity : Rat) * it.unit_price)).sum ∧
      (([({ item_name := "a", quantity := 2, unit := "pcs",
            unit_price := 3 } : NewItem)].map
          (fun it => (it.quantity : Rat) * it.unit_price)).sum ≠ 0 →
        compute_pr_total db' pid ≠
          ((pr_line_items db' pid).map subtotal).sum) :=
  c10_pr_new_total_stays_zero
    { prs := [], line_items := [], purchase_orders := [],
      balances := [], approval_logs := [] }
    { id := 7, role := "requester" } "t" "d"
    [{ item_name := "a", quantity := 2, unit := "pcs", unit_price := 3 }]
    (Or.inr (Or.inr rfl)) (by simp)

end Procurement
